import Mathlib

set_option maxHeartbeats 1000000

namespace RemoteXact

/-! Shallow embedding of src/src/backend/distributed/transaction/remote_transaction.c:
the per-connection remote transaction state machine, the failure classifier,
the coordinated 2PC prepare/commit phases, the savepoint rollback path and the
prepared-transaction identifier allocator/parser.

External collaborators (libpq, connection management) are modelled as boolean oracles:
`sendOK` stands for the return value of SendRemoteCommand, `resultOK` for
IsResponseOK(GetRemoteCommandResult(...)), `clearOK` for ClearResults.
ereport/ReportConnectionError/ReportResultError calls are recorded as
`ReportLevel` values; commands handed to SendRemoteCommand are recorded in
structured form. -/

/-- Severity of an ereport / ReportConnectionError / ReportResultError call. -/
inductive ReportLevel where
  | warning
  | error
deriving DecidableEq

/-- Control commands the module hands to SendRemoteCommand, in structured form.
The wire text of each constructor is fixed by the source (e.g. `commitPrepared n`
is "COMMIT PREPARED '<n>'"). -/
inductive RemoteCommand where
  | commit
  | rollback
  | commitPrepared (name : String)
  | rollbackPrepared (name : String)
  | prepareTransaction (name : String)
  | rollbackToSavepoint (subId : Nat)
deriving DecidableEq

/-- RemoteTransactionState: the per-connection state enum
(REMOTE_TRANS_NOT_STARTED .. REMOTE_TRANS_COMMITTED). -/
inductive RemoteTransactionState where
  | notStarted
  | starting
  | started
  | preparing
  | prepared
  | onePCAborting
  | twoPCAborting
  | aborted
  | onePCCommitting
  | twoPCCommitting
  | committed
deriving DecidableEq

/-- The RemoteTransaction struct embedded in each MultiConnection. -/
structure RemoteTransaction where
  transactionState : RemoteTransactionState
  transactionFailed : Bool
  transactionCritical : Bool
  transactionRecovering : Bool
  preparedName : String
  lastSuccessfulSubXact : Nat
  lastQueuedSubXact : Nat
deriving DecidableEq

/-- The slice of MultiConnection this module reads: the embedded
RemoteTransaction plus ConnectionModifiedPlacement(connection). -/
structure MultiConnection where
  remoteTransaction : RemoteTransaction
  connectionModifiedPlacement : Bool
deriving DecidableEq

/-- Result of one embedded operation: the updated connection, the commands
handed to SendRemoteCommand (recorded even when the send fails), and the
severities of the reports raised. -/
structure StepResult where
  conn : MultiConnection
  sent : List RemoteCommand
  reports : List ReportLevel
deriving DecidableEq

/-- HandleRemoteTransactionConnectionError: records the transaction as failed
and reports a connection error, hard iff critical and raiseErrors. -/
def HandleRemoteTransactionConnectionError (connection : MultiConnection)
    (raiseErrors : Bool) : MultiConnection × ReportLevel :=
  let transaction := connection.remoteTransaction
  let transaction1 := { transaction with transactionFailed := true }
  let level :=
    if transaction1.transactionCritical && raiseErrors then ReportLevel.error
    else ReportLevel.warning
  ({ connection with remoteTransaction := transaction1 }, level)

/-- HandleRemoteTransactionResultError: records the transaction as failed
and reports a result error, hard iff critical and raiseErrors. -/
def HandleRemoteTransactionResultError (connection : MultiConnection)
    (raiseErrors : Bool) : MultiConnection × ReportLevel :=
  let transaction := connection.remoteTransaction
  let transaction1 := { transaction with transactionFailed := true }
  let level :=
    if transaction1.transactionCritical && raiseErrors then ReportLevel.error
    else ReportLevel.warning
  ({ connection with remoteTransaction := transaction1 }, level)

/-- MarkRemoteTransactionFailed: records the transaction as failed; ereports
ERROR only when critical and allowErrorPromotion. -/
def MarkRemoteTransactionFailed (connection : MultiConnection)
    (allowErrorPromotion : Bool) : MultiConnection × List ReportLevel :=
  let transaction := { connection.remoteTransaction with transactionFailed := true }
  let reports :=
    if transaction.transactionCritical && allowErrorPromotion then [ReportLevel.error]
    else []
  ({ connection with remoteTransaction := transaction }, reports)

/-- StartRemoteTransactionCommit: failed transactions get a best-effort
ROLLBACK (send failure deliberately unreported), prepared ones
COMMIT PREPARED '<name>', everything else a plain COMMIT.
raiseErrors is false at this call site. -/
def StartRemoteTransactionCommit (connection : MultiConnection) (sendOK : Bool) :
    StepResult :=
  let transaction := connection.remoteTransaction
  if transaction.transactionFailed then
    let transaction1 :=
      { transaction with transactionState := RemoteTransactionState.onePCAborting }
    { conn := { connection with remoteTransaction := transaction1 },
      sent := [RemoteCommand.rollback], reports := [] }
  else if transaction.transactionState = RemoteTransactionState.prepared then
    let transaction1 :=
      { transaction with transactionState := RemoteTransactionState.twoPCCommitting }
    let connection1 := { connection with remoteTransaction := transaction1 }
    if sendOK then
      { conn := connection1,
        sent := [RemoteCommand.commitPrepared transaction.preparedName], reports := [] }
    else
      let handled := HandleRemoteTransactionConnectionError connection1 false
      { conn := handled.1,
        sent := [RemoteCommand.commitPrepared transaction.preparedName],
        reports := [handled.2] }
  else
    let transaction1 :=
      { transaction with transactionState := RemoteTransactionState.onePCCommitting }
    let connection1 := { connection with remoteTransaction := transaction1 }
    if sendOK then
      { conn := connection1, sent := [RemoteCommand.commit], reports := [] }
    else
      let handled := HandleRemoteTransactionConnectionError connection1 false
      { conn := handled.1, sent := [RemoteCommand.commit], reports := [handled.2] }

/-- FinishRemoteTransactionCommit: a non-OK result is handled with
raiseErrors = false (never a hard error) plus an extra "failed to commit"
WARNING in the committing states, and leaves the state unchanged; an OK
result moves aborting states to ABORTED and the rest to COMMITTED. -/
def FinishRemoteTransactionCommit (connection : MultiConnection) (resultOK : Bool) :
    StepResult :=
  let transaction := connection.remoteTransaction
  if !resultOK then
    let handled := HandleRemoteTransactionResultError connection false
    let extra :=
      if transaction.transactionState = RemoteTransactionState.onePCCommitting
          ∨ transaction.transactionState = RemoteTransactionState.twoPCCommitting then
        [ReportLevel.warning]
      else []
    { conn := handled.1, sent := [], reports := handled.2 :: extra }
  else if transaction.transactionState = RemoteTransactionState.onePCAborting
      ∨ transaction.transactionState = RemoteTransactionState.twoPCAborting then
    { conn := { connection with remoteTransaction :=
        { transaction with transactionState := RemoteTransactionState.aborted } },
      sent := [], reports := [] }
  else
    { conn := { connection with remoteTransaction :=
        { transaction with transactionState := RemoteTransactionState.committed } },
      sent := [], reports := [] }

/-- StartRemoteTransactionPrepare: assigns the 2PC name (computed by the
caller via Assign2PCName, the recovery-log write is an external call with no
effect on the transaction record), then sends PREPARE TRANSACTION '<name>'.
raiseErrors is true at this call site. -/
def StartRemoteTransactionPrepare (connection : MultiConnection) (name : String)
    (sendOK : Bool) : StepResult :=
  let transaction := { connection.remoteTransaction with preparedName := name }
  let connection1 := { connection with remoteTransaction := transaction }
  if sendOK then
    { conn := { connection1 with remoteTransaction :=
        { transaction with transactionState := RemoteTransactionState.preparing } },
      sent := [RemoteCommand.prepareTransaction name], reports := [] }
  else
    let handled := HandleRemoteTransactionConnectionError connection1 true
    { conn := handled.1, sent := [RemoteCommand.prepareTransaction name],
      reports := [handled.2] }

/-- FinishRemoteTransactionPrepare: a non-OK result marks ABORTED and is
handled with raiseErrors = true (hard error only when critical); an OK result
marks PREPARED. A failed ClearResults afterwards ereports ERROR with a retry
hint. -/
def FinishRemoteTransactionPrepare (connection : MultiConnection)
    (resultOK clearOK : Bool) : StepResult :=
  let transaction := connection.remoteTransaction
  let base :=
    if !resultOK then
      let connection1 := { connection with remoteTransaction :=
        { transaction with transactionState := RemoteTransactionState.aborted } }
      let handled := HandleRemoteTransactionResultError connection1 true
      (handled.1, [handled.2])
    else
      ({ connection with remoteTransaction :=
          { transaction with transactionState := RemoteTransactionState.prepared } },
        ([] : List ReportLevel))
  let clearReports := if clearOK then ([] : List ReportLevel) else [ReportLevel.error]
  { conn := base.1, sent := [], reports := base.2 ++ clearReports }

/-- StartRemoteTransactionAbort: from PREPARING/PREPARED drains the PREPARE
result and sends ROLLBACK PREPARED '<name>'; otherwise, if pending results
cannot be cleared without blocking the connection is shut down (no command),
else a plain ROLLBACK is sent (send failure marked failed without
promotion). raiseErrors is false at this call site. -/
def StartRemoteTransactionAbort (connection : MultiConnection)
    (sendOK clearReadyOK : Bool) : StepResult :=
  let transaction := connection.remoteTransaction
  if transaction.transactionState = RemoteTransactionState.preparing
      ∨ transaction.transactionState = RemoteTransactionState.prepared then
    if sendOK then
      { conn := { connection with remoteTransaction :=
          { transaction with transactionState := RemoteTransactionState.twoPCAborting } },
        sent := [RemoteCommand.rollbackPrepared transaction.preparedName],
        reports := [] }
    else
      let handled := HandleRemoteTransactionConnectionError connection false
      { conn := handled.1,
        sent := [RemoteCommand.rollbackPrepared transaction.preparedName],
        reports := [handled.2] }
  else if !clearReadyOK then
    { conn := connection, sent := [], reports := [] }
  else if sendOK then
    { conn := { connection with remoteTransaction :=
        { transaction with transactionState := RemoteTransactionState.onePCAborting } },
      sent := [RemoteCommand.rollback], reports := [] }
  else
    let marked := MarkRemoteTransactionFailed connection false
    { conn := marked.1, sent := [RemoteCommand.rollback], reports := marked.2 }

/-- Per-connection oracle for the 2PC prepare phase. -/
structure PrepareOracle where
  sendOK : Bool
  resultOK : Bool
  clearOK : Bool
deriving DecidableEq

/-- Per-connection oracle for the commit phase. -/
structure CommitOracle where
  sendOK : Bool
  resultOK : Bool
deriving DecidableEq

/-- Per-connection oracle for the savepoint rollback broadcast. -/
structure RollbackOracle where
  sendOK : Bool
  resultOK : Bool
deriving DecidableEq

def decDigit (n : Nat) : Char :=
  if n = 0 then '0' else if n = 1 then '1' else if n = 2 then '2'
  else if n = 3 then '3' else if n = 4 then '4' else if n = 5 then '5'
  else if n = 6 then '6' else if n = 7 then '7' else if n = 8 then '8' else '9'

/-- Fuel-based driver for natDecimal; the fuel is only a structural-recursion
device, any fuel at least the value itself gives the decimal rendering. -/
def natDecimalAux : Nat → Nat → List Char
  | 0, n => [decDigit n]
  | fuel + 1, n =>
    if n < 10 then [decDigit n]
    else natDecimalAux fuel (n / 10) ++ [decDigit (n % 10)]

/-- Decimal rendering of a non-negative value, most significant digit first:
the %u / UINT64_FORMAT conversions of SafeSnprintf. -/
def natDecimal (n : Nat) : List Char := natDecimalAux n n

/-- Assign2PCIdentifier's name format:
citus_<source group>_<pid>_<distributed transaction number>_<connection number>,
every field printed as a non-negative decimal. -/
def prepared2PCNameChars (groupId pid transactionNumber connectionNumber : Nat) :
    List Char :=
  'c' :: 'i' :: 't' :: 'u' :: 's' :: '_' ::
    (natDecimal groupId ++ '_' ::
      (natDecimal pid ++ '_' ::
        (natDecimal transactionNumber ++ '_' :: natDecimal connectionNumber)))

def Assign2PCName (groupId pid transactionNumber connectionNumber : Nat) : String :=
  String.mk (prepared2PCNameChars groupId pid transactionNumber connectionNumber)

/-- One connection of the prepare-phase send loop: failed transactions are
skipped, read-only connections (no modified placement) are skipped, writers
get a fresh identifier (the process-local connection counter is threaded
through) and a PREPARE TRANSACTION send. -/
def prepareStartStep (groupId pid transactionNumber : Nat) (counter : Nat)
    (connection : MultiConnection) (oracle : PrepareOracle) : Nat × StepResult :=
  let transaction := connection.remoteTransaction
  if transaction.transactionFailed then
    (counter, { conn := connection, sent := [], reports := [] })
  else if connection.connectionModifiedPlacement then
    (counter + 1,
      StartRemoteTransactionPrepare connection
        (Assign2PCName groupId pid transactionNumber counter) oracle.sendOK)
  else
    (counter, { conn := connection, sent := [], reports := [] })

/-- One connection of the prepare-phase result loop: only connections actually
put into PREPARING are finished. -/
def prepareFinishStep (connection : MultiConnection) (oracle : PrepareOracle) :
    StepResult :=
  if connection.remoteTransaction.transactionState = RemoteTransactionState.preparing then
    FinishRemoteTransactionPrepare connection oracle.resultOK oracle.clearOK
  else
    { conn := connection, sent := [], reports := [] }

/-- The prepare-phase send loop over the whole participant list, threading the
process-local connection counter. -/
def prepareStartPhase (groupId pid transactionNumber : Nat) :
    Nat → List (MultiConnection × PrepareOracle) → List (StepResult × PrepareOracle)
  | _, [] => []
  | counter, p :: rest =>
    let step := prepareStartStep groupId pid transactionNumber counter p.1 p.2
    (step.2, p.2) :: prepareStartPhase groupId pid transactionNumber step.1 rest

/-- CoordinatedRemoteTransactionsPrepare: all PREPARE sends are dispatched
first, then all results are collected. Each connection's two steps commute
with the other connections' steps, so the two loops compose per connection. -/
def CoordinatedRemoteTransactionsPrepare (groupId pid transactionNumber counter0 : Nat)
    (participants : List (MultiConnection × PrepareOracle)) : List StepResult :=
  (prepareStartPhase groupId pid transactionNumber counter0 participants).map
    (fun step =>
      let fin := prepareFinishStep step.1.conn step.2
      { conn := fin.conn, sent := step.1.sent ++ fin.sent,
        reports := step.1.reports ++ fin.reports })

/-- One connection of the commit-phase send loop
(CoordinatedRemoteTransactionsCommit): not-started, already committing and
terminal connections are skipped. -/
def commitStartStep (connection : MultiConnection) (oracle : CommitOracle) :
    StepResult :=
  let st := connection.remoteTransaction.transactionState
  if st = RemoteTransactionState.notStarted
      ∨ st = RemoteTransactionState.onePCCommitting
      ∨ st = RemoteTransactionState.twoPCCommitting
      ∨ st = RemoteTransactionState.committed
      ∨ st = RemoteTransactionState.aborted then
    { conn := connection, sent := [], reports := [] }
  else
    StartRemoteTransactionCommit connection oracle.sendOK

/-- One connection of the commit-phase result loop: only connections now
committing or aborting are finished. -/
def commitFinishStep (connection : MultiConnection) (oracle : CommitOracle) :
    StepResult :=
  let st := connection.remoteTransaction.transactionState
  if st = RemoteTransactionState.onePCCommitting
      ∨ st = RemoteTransactionState.twoPCCommitting
      ∨ st = RemoteTransactionState.onePCAborting
      ∨ st = RemoteTransactionState.twoPCAborting then
    FinishRemoteTransactionCommit connection oracle.resultOK
  else
    { conn := connection, sent := [], reports := [] }

/-- CoordinatedRemoteTransactionsCommit, composed per connection. -/
def CoordinatedRemoteTransactionsCommit
    (participants : List (MultiConnection × CommitOracle)) : List StepResult :=
  participants.map (fun p =>
    let step := commitStartStep p.1 p.2
    let fin := commitFinishStep step.conn p.2
    { conn := fin.conn, sent := step.sent ++ fin.sent,
      reports := step.reports ++ fin.reports })

/-- StartRemoteTransactionSavepointRollback: sends
ROLLBACK TO SAVEPOINT savepoint_<subId>; raiseErrors is false here. -/
def StartRemoteTransactionSavepointRollback (connection : MultiConnection)
    (subId : Nat) (sendOK : Bool) : StepResult :=
  if sendOK then
    { conn := connection, sent := [RemoteCommand.rollbackToSavepoint subId],
      reports := [] }
  else
    let handled := HandleRemoteTransactionConnectionError connection false
    { conn := handled.1, sent := [RemoteCommand.rollbackToSavepoint subId],
      reports := [handled.2] }

/-- FinishRemoteTransactionSavepointRollback: a non-OK result is handled with
raiseErrors = false; an OK result while recovering clears both the failed and
recovering flags; in every case the state is reset to STARTED afterwards. -/
def FinishRemoteTransactionSavepointRollback (connection : MultiConnection)
    (resultOK : Bool) : StepResult :=
  let transaction := connection.remoteTransaction
  let base :=
    if !resultOK then
      let handled := HandleRemoteTransactionResultError connection false
      (handled.1, [handled.2])
    else if transaction.transactionRecovering then
      ({ connection with remoteTransaction :=
          { transaction with transactionFailed := false,
                             transactionRecovering := false } },
        ([] : List ReportLevel))
    else (connection, ([] : List ReportLevel))
  let transaction1 := base.1.remoteTransaction
  { conn := { base.1 with remoteTransaction :=
      { transaction1 with transactionState := RemoteTransactionState.started } },
    sent := [], reports := base.2 }

/-- One connection of the rollback-to-savepoint send loop: after the
cancellation request and discard-warnings drain (transport effects only), a
failed transaction is marked recovering and rolled back only when
lastSuccessfulSubXact <= subId, otherwise it is skipped; non-failed
transactions always attempt the rollback. -/
def savepointRollbackStartStep (subId : Nat) (connection : MultiConnection)
    (sendOK : Bool) : StepResult :=
  let transaction := connection.remoteTransaction
  if transaction.transactionFailed then
    if transaction.lastSuccessfulSubXact ≤ subId then
      let connection1 := { connection with remoteTransaction :=
        { transaction with transactionRecovering := true } }
      StartRemoteTransactionSavepointRollback connection1 subId sendOK
    else
      { conn := connection, sent := [], reports := [] }
  else
    StartRemoteTransactionSavepointRollback connection subId sendOK

/-- One connection of the rollback-to-savepoint result loop: connections that
are failed and not recovering are skipped. -/
def savepointRollbackFinishStep (connection : MultiConnection) (resultOK : Bool) :
    StepResult :=
  let transaction := connection.remoteTransaction
  if transaction.transactionFailed && !transaction.transactionRecovering then
    { conn := connection, sent := [], reports := [] }
  else
    FinishRemoteTransactionSavepointRollback connection resultOK

/-- CoordinatedRemoteTransactionsSavepointRollback, composed per connection. -/
def CoordinatedRemoteTransactionsSavepointRollback (subId : Nat)
    (participants : List (MultiConnection × RollbackOracle)) : List StepResult :=
  participants.map (fun p =>
    let step := savepointRollbackStartStep subId p.1 p.2.sendOK
    let fin := savepointRollbackFinishStep step.conn p.2.resultOK
    { conn := fin.conn, sent := step.sent ++ fin.sent,
      reports := step.reports ++ fin.reports })

def EINVAL : Nat := 22
def ERANGE : Nat := 34
def LONG_MAX : Int := 9223372036854775807
def LONG_MIN : Int := -9223372036854775808
def INT_MAX : Int := 2147483647
def UINT_MAX : Nat := 4294967295
def ULLONG_MAX : Nat := 18446744073709551615
def COORDINATOR_GROUP_ID : Int := 0

def isDig (c : Char) : Bool := decide (48 ≤ c.toNat ∧ c.toNat ≤ 57)

/-- Leading-digit scan shared by the strtol family: accumulated value and
number of digits consumed. strtol is called with endptr = NULL throughout the
parser, so the stopping position is not returned. -/
def spanDigits : List Char → Nat → Nat → Nat × Nat
  | [], acc, cnt => (acc, cnt)
  | c :: rest, acc, cnt =>
    if isDig c then spanDigits rest (acc * 10 + (c.toNat - 48)) (cnt + 1)
    else (acc, cnt)

/-- Optional single sign accepted by the strtol family. -/
def parseSign (cs : List Char) : Bool × List Char :=
  match cs with
  | [] => (false, [])
  | c :: rest =>
    if c = '-' then (true, rest)
    else if c = '+' then (false, rest)
    else (false, c :: rest)

/-- strtol on a 64-bit long: returns the clamped value and the errno after the
call (EINVAL when no digits were converted, ERANGE on overflow, otherwise the
incoming errno is left untouched — libc does not reset errno on success). -/
def strtolModel (cs : List Char) (errno : Nat) : Int × Nat :=
  let signed := parseSign cs
  let scanned := spanDigits signed.2 0 0
  if scanned.2 = 0 then (0, EINVAL)
  else
    let value : Int := if signed.1 then -(scanned.1 : Int) else (scanned.1 : Int)
    if value > LONG_MAX then (LONG_MAX, ERANGE)
    else if value < LONG_MIN then (LONG_MIN, ERANGE)
    else (value, errno)

/-- strtou64 / strtoul on a 64-bit unsigned long: clamps to ULLONG_MAX with
ERANGE on overflow, wraps a leading minus sign modulo 2^64. -/
def strtou64Model (cs : List Char) (errno : Nat) : Nat × Nat :=
  let signed := parseSign cs
  let scanned := spanDigits signed.2 0 0
  if scanned.2 = 0 then (0, EINVAL)
  else if scanned.1 > ULLONG_MAX then (ULLONG_MAX, ERANGE)
  else if signed.1 then
    ((18446744073709551616 - scanned.1 % 18446744073709551616) %
        18446744073709551616, errno)
  else (scanned.1, errno)

def strtoulModel (cs : List Char) (errno : Nat) : Nat × Nat := strtou64Model cs errno

/-- strchr(p, '_') followed by the ++currentCharPointer step: the suffix right
after the first underscore, or none when there is no underscore. -/
def strchrSkipUnderscore : List Char → Option (List Char)
  | [] => none
  | c :: rest => if c = '_' then some rest else strchrSkipUnderscore rest

/-- Truncating store of a long value through an int32 pointer
(two's-complement wrap, as on every platform Citus supports). -/
def toInt32 (v : Int) : Int :=
  let m := v % 4294967296
  if m < 2147483648 then m else m - 4294967296

/-- ParsePreparedTransactionName: walks the name, skipping to the character
after each underscore and converting the following field with the strtol
family, rejecting exactly when the source's errno/sentinel guards fire.
errno0 is the value of errno on entry (the source never resets it). The
groupId and procId fields are stored through int32 pointers, hence the
toInt32 truncation of the 64-bit strtol result. -/
def ParsePreparedTransactionName (s : String) (errno0 : Nat) :
    Option (Int × Int × Nat × Nat) :=
  (strchrSkipUnderscore s.toList).bind (fun cs1 =>
    let r1 := strtolModel cs1 errno0
    let groupId := toInt32 r1.1
    if (groupId = COORDINATOR_GROUP_ID ∧ r1.2 = EINVAL)
        ∨ (groupId = INT_MAX ∧ r1.2 = ERANGE) then none
    else (strchrSkipUnderscore cs1).bind (fun cs2 =>
      let r2 := strtolModel cs2 r1.2
      let procId := toInt32 r2.1
      if (procId = 0 ∧ r2.2 = EINVAL) ∨ (procId = INT_MAX ∧ r2.2 = ERANGE) then none
      else (strchrSkipUnderscore cs2).bind (fun cs3 =>
        let r3 := strtou64Model cs3 r2.2
        if (r3.1 = 0 ∧ r3.2 ≠ 0) ∨ (r3.1 = ULLONG_MAX ∧ r3.2 = ERANGE) then none
        else (strchrSkipUnderscore cs3).bind (fun cs4 =>
          let r4 := strtoulModel cs4 r3.2
          let connectionNumber := r4.1 % 4294967296
          if (connectionNumber = 0 ∧ r4.2 = EINVAL)
              ∨ (connectionNumber = UINT_MAX ∧ r4.2 = ERANGE) then none
          else some (groupId, procId, r3.1, connectionNumber)))))

/-- A freshly begun transaction: STARTED, no failure, not critical. -/
def baseTxn : RemoteTransaction :=
  { transactionState := RemoteTransactionState.started, transactionFailed := false,
    transactionCritical := false, transactionRecovering := false, preparedName := "",
    lastSuccessfulSubXact := 1, lastQueuedSubXact := 1 }

/-- A participant that recorded a write. -/
def writerConn : MultiConnection :=
  { remoteTransaction := baseTxn, connectionModifiedPlacement := true }

/-- A read-only participant (no modified placement). -/
def readerConn : MultiConnection :=
  { remoteTransaction := baseTxn, connectionModifiedPlacement := false }

/-- A critical write participant. -/
def criticalWriterConn : MultiConnection :=
  { remoteTransaction := { baseTxn with transactionCritical := true },
    connectionModifiedPlacement := true }

/-- A non-critical participant whose PREPARE is in flight. -/
def preparingConn : MultiConnection :=
  { remoteTransaction :=
      { baseTxn with transactionState := RemoteTransactionState.preparing },
    connectionModifiedPlacement := true }

/-- A critical participant whose PREPARE is in flight. -/
def preparingCriticalConn : MultiConnection :=
  { remoteTransaction :=
      { baseTxn with transactionState := RemoteTransactionState.preparing,
                     transactionCritical := true },
    connectionModifiedPlacement := true }

/-- A participant whose PREPARE reached PREPARED. -/
def preparedConn : MultiConnection :=
  { remoteTransaction :=
      { baseTxn with transactionState := RemoteTransactionState.prepared,
                     preparedName := "citus_1_2_3_0" },
    connectionModifiedPlacement := true }

/-- A participant waiting for the result of a plain COMMIT. -/
def committingConn : MultiConnection :=
  { remoteTransaction :=
      { baseTxn with transactionState := RemoteTransactionState.onePCCommitting },
    connectionModifiedPlacement := true }

/-- A failed participant whose last successful savepoint is lss (it failed
after sub-transaction 4 was queued). -/
def failedSavepointConn (lss : Nat) : MultiConnection :=
  { remoteTransaction :=
      { baseTxn with transactionFailed := true, lastSuccessfulSubXact := lss,
                     lastQueuedSubXact := 4 },
    connectionModifiedPlacement := true }

/-- A failed participant marked recovering by the rollback-to-savepoint send
loop. -/
def recoveringConn : MultiConnection :=
  { remoteTransaction :=
      { baseTxn with transactionFailed := true, transactionRecovering := true },
    connectionModifiedPlacement := true }

end RemoteXact

namespace RemoteXact

theorem decDigit_isDig (n : Nat) : isDig (decDigit n) = true := by
  unfold decDigit
  repeat' split
  all_goals decide

theorem decDigit_toNat (n : Nat) (h : n < 10) : (decDigit n).toNat = 48 + n := by
  interval_cases n <;> decide

theorem isDig_ne_underscore (c : Char) (h : isDig c = true) : c ≠ '_' := by
  intro he
  subst he
  exact absurd h (by decide)

theorem decDigit_ne_minus (n : Nat) : decDigit n ≠ '-' := by
  unfold decDigit
  repeat' split
  all_goals decide

theorem decDigit_ne_plus (n : Nat) : decDigit n ≠ '+' := by
  unfold decDigit
  repeat' split
  all_goals decide

theorem natDecimalAux_congr :
    ∀ f1 f2 n : Nat, n ≤ f1 → n ≤ f2 → natDecimalAux f1 n = natDecimalAux f2 n := by
  intro f1
  induction f1 with
  | zero =>
    intro f2 n h1 _
    have hn : n = 0 := Nat.le_zero.mp h1
    subst hn
    cases f2 with
    | zero => rfl
    | succ b => simp [natDecimalAux]
  | succ a ih =>
    intro f2 n h1 h2
    by_cases h : n < 10
    · cases f2 with
      | zero =>
        have hn : n = 0 := Nat.le_zero.mp h2
        subst hn
        simp [natDecimalAux]
      | succ b => simp [natDecimalAux, h]
    · have hf2 : ∃ b, f2 = b + 1 := by
        cases f2 with
        | zero => omega
        | succ b => exact ⟨b, rfl⟩
      obtain ⟨b, rfl⟩ := hf2
      simp only [natDecimalAux, if_neg h]
      have hd : n / 10 < n := Nat.div_lt_self (by omega) (by omega)
      rw [ih b (n / 10) (by omega) (by omega)]

/-- The defining recursion of natDecimal. -/
theorem natDecimal_eq (n : Nat) :
    natDecimal n = if n < 10 then [decDigit n]
      else natDecimal (n / 10) ++ [decDigit (n % 10)] := by
  unfold natDecimal
  by_cases h : n < 10
  · rw [if_pos h]
    cases n with
    | zero => rfl
    | succ m => simp [natDecimalAux, h]
  · rw [if_neg h]
    have hn : ∃ a, n = a + 1 := by
      cases n with
      | zero => omega
      | succ a => exact ⟨a, rfl⟩
    obtain ⟨a, rfl⟩ := hn
    simp only [natDecimalAux, if_neg h]
    have hd : (a + 1) / 10 < a + 1 := Nat.div_lt_self (by omega) (by omega)
    rw [natDecimalAux_congr a ((a + 1) / 10) ((a + 1) / 10) (by omega) (by omega)]

theorem natDecimal_mem_isDig : ∀ n c, c ∈ natDecimal n → isDig c = true := by
  intro n
  induction n using Nat.strong_induction_on with
  | _ n ih =>
    intro c hc
    rw [natDecimal_eq] at hc
    by_cases h : n < 10
    · rw [if_pos h] at hc
      simp only [List.mem_singleton] at hc
      subst hc
      exact decDigit_isDig n
    · rw [if_neg h] at hc
      rw [List.mem_append] at hc
      rcases hc with hc | hc
      · exact ih (n / 10) (Nat.div_lt_self (by omega) (by omega)) c hc
      · simp only [List.mem_singleton] at hc
        subst hc
        exact decDigit_isDig (n % 10)

theorem natDecimal_ne_nil (n : Nat) : natDecimal n ≠ [] := by
  rw [natDecimal_eq]
  split <;> simp

theorem natDecimal_length_pos (n : Nat) : 0 < (natDecimal n).length := by
  cases h : natDecimal n with
  | nil => exact absurd h (natDecimal_ne_nil n)
  | cons a t => simp

theorem natDecimal_head : ∀ n : Nat, ∃ m t, natDecimal n = decDigit m :: t := by
  intro n
  induction n using Nat.strong_induction_on with
  | _ n ih =>
    rw [natDecimal_eq]
    by_cases h : n < 10
    · exact ⟨n, [], by rw [if_pos h]⟩
    · rw [if_neg h]
      obtain ⟨m, t, ht⟩ := ih (n / 10) (Nat.div_lt_self (by omega) (by omega))
      exact ⟨m, t ++ [decDigit (n % 10)], by rw [ht]; rfl⟩

theorem parseSign_natDecimal (n : Nat) (rest : List Char) :
    parseSign (natDecimal n ++ rest) = (false, natDecimal n ++ rest) := by
  obtain ⟨m, t, h⟩ := natDecimal_head n
  rw [h, List.cons_append]
  simp only [parseSign]
  rw [if_neg (decDigit_ne_minus m), if_neg (decDigit_ne_plus m)]

theorem spanDigits_stop_underscore (r : List Char) (acc cnt : Nat) :
    spanDigits ('_' :: r) acc cnt = (acc, cnt) := by
  simp only [spanDigits]
  rw [if_neg (by decide : ¬ isDig '_' = true)]

theorem spanDigits_natDecimal :
    ∀ n rest acc cnt, spanDigits (natDecimal n ++ rest) acc cnt =
      spanDigits rest (acc * 10 ^ (natDecimal n).length + n)
        (cnt + (natDecimal n).length) := by
  intro n
  induction n using Nat.strong_induction_on with
  | _ n ih =>
    intro rest acc cnt
    by_cases h : n < 10
    · rw [natDecimal_eq, if_pos h]
      simp only [List.singleton_append, List.length_singleton, pow_one]
      simp only [spanDigits]
      rw [if_pos (decDigit_isDig n), decDigit_toNat n h]
      have hx : 48 + n - 48 = n := by omega
      rw [hx]
    · rw [natDecimal_eq, if_neg h, List.append_assoc, List.singleton_append]
      rw [ih (n / 10) (Nat.div_lt_self (by omega) (by omega))]
      simp only [spanDigits]
      rw [if_pos (decDigit_isDig (n % 10)), decDigit_toNat (n % 10) (by omega)]
      rw [List.length_append, List.length_singleton, pow_succ, ← mul_assoc]
      have hx : 48 + n % 10 - 48 = n % 10 := by omega
      rw [hx]
      have h1 : (acc * 10 ^ (natDecimal (n / 10)).length + n / 10) * 10 + n % 10 =
          acc * 10 ^ (natDecimal (n / 10)).length * 10 + n := by
        generalize acc * 10 ^ (natDecimal (n / 10)).length = Q
        omega
      rw [h1]
      have h2 : cnt + (natDecimal (n / 10)).length + 1 =
          cnt + ((natDecimal (n / 10)).length + 1) := by omega
      rw [h2]

theorem strchrSkip_no_underscore :
    ∀ (l rest : List Char), (∀ c ∈ l, c ≠ '_') →
      strchrSkipUnderscore (l ++ '_' :: rest) = some rest := by
  intro l
  induction l with
  | nil =>
    intro rest _
    simp [strchrSkipUnderscore]
  | cons a t ih =>
    intro rest h
    have ha : a ≠ '_' := h a (by simp)
    rw [List.cons_append]
    simp only [strchrSkipUnderscore]
    rw [if_neg ha]
    exact ih rest (fun c hc => h c (by simp [hc]))

theorem strchrSkip_natDecimal (n : Nat) (rest : List Char) :
    strchrSkipUnderscore (natDecimal n ++ '_' :: rest) = some rest :=
  strchrSkip_no_underscore _ rest
    (fun c hc => isDig_ne_underscore c (natDecimal_mem_isDig n c hc))

theorem strtolModel_natDecimal (n : Nat) (rest : List Char) (errno : Nat)
    (hstop : ∀ acc cnt, spanDigits rest acc cnt = (acc, cnt))
    (hn : (n : Int) ≤ LONG_MAX) :
    strtolModel (natDecimal n ++ rest) errno = ((n : Int), errno) := by
  unfold strtolModel
  rw [parseSign_natDecimal]
  simp only
  rw [spanDigits_natDecimal, hstop]
  have hlen := natDecimal_length_pos n
  rw [if_neg (by omega : ¬ (0 + (natDecimal n).length = 0))]
  simp only [Bool.false_eq_true, if_false, zero_mul, zero_add]
  rw [if_neg (by omega : ¬ ((n : Int) > LONG_MAX))]
  rw [if_neg (by unfold LONG_MIN; omega : ¬ ((n : Int) < LONG_MIN))]

theorem strtou64Model_natDecimal (n : Nat) (rest : List Char) (errno : Nat)
    (hstop : ∀ acc cnt, spanDigits rest acc cnt = (acc, cnt))
    (hn : n ≤ ULLONG_MAX) :
    strtou64Model (natDecimal n ++ rest) errno = (n, errno) := by
  unfold strtou64Model
  rw [parseSign_natDecimal]
  simp only
  rw [spanDigits_natDecimal, hstop]
  have hlen := natDecimal_length_pos n
  rw [if_neg (by omega : ¬ (0 + (natDecimal n).length = 0))]
  simp only [zero_mul, zero_add]
  rw [if_neg (by omega : ¬ (n > ULLONG_MAX))]
  simp

theorem toInt32_of_small (v : Int) (h0 : 0 ≤ v) (h : v < 2147483648) :
    toInt32 v = v := by
  unfold toInt32
  rw [Int.emod_eq_of_lt h0 (by omega)]
  simp only
  rw [if_pos (by omega : v < 2147483648)]

end RemoteXact

namespace RemoteXact

theorem strchrSkip_cons_ne (c : Char) (l : List Char) (h : c ≠ '_') :
    strchrSkipUnderscore (c :: l) = strchrSkipUnderscore l := by
  simp only [strchrSkipUnderscore]
  rw [if_neg h]

theorem strchrSkip_cons_underscore (l : List Char) :
    strchrSkipUnderscore ('_' :: l) = some l := rfl

theorem strchrSkip_citus (R : List Char) :
    strchrSkipUnderscore ('c' :: 'i' :: 't' :: 'u' :: 's' :: '_' :: R) = some R := by
  rw [strchrSkip_cons_ne _ _ (by decide), strchrSkip_cons_ne _ _ (by decide),
    strchrSkip_cons_ne _ _ (by decide), strchrSkip_cons_ne _ _ (by decide),
    strchrSkip_cons_ne _ _ (by decide), strchrSkip_cons_underscore]

/-- Claim C2: for every tuple of non-negative values (groupId, pid, txnNumber,
connSeq) within the field-width bounds of the identifier format (int32, int,
uint64 and uint32 respectively), encoding the tuple with Assign2PCIdentifier's
citus_g_p_t_c format and parsing the result with ParsePreparedTransactionName
(entered with errno = 0) succeeds and returns exactly the original four
values. -/
theorem c2_identifier_roundtrip (groupId pid transactionNumber connectionNumber : Nat)
    (hg : groupId < 2147483648) (hp : pid < 2147483648)
    (ht : transactionNumber < 18446744073709551616)
    (hc : connectionNumber < 4294967296) :
    ParsePreparedTransactionName
        (Assign2PCName groupId pid transactionNumber connectionNumber) 0 =
      some ((groupId : Int), (pid : Int), transactionNumber, connectionNumber) := by
  have e1 : strtolModel (natDecimal groupId ++ '_' ::
      (natDecimal pid ++ '_' ::
        (natDecimal transactionNumber ++ '_' :: natDecimal connectionNumber))) 0 =
      ((groupId : Int), 0) :=
    strtolModel_natDecimal _ _ _ (fun acc cnt => spanDigits_stop_underscore _ acc cnt)
      (by unfold LONG_MAX; omega)
  have e2 : strtolModel (natDecimal pid ++ '_' ::
      (natDecimal transactionNumber ++ '_' :: natDecimal connectionNumber)) 0 =
      ((pid : Int), 0) :=
    strtolModel_natDecimal _ _ _ (fun acc cnt => spanDigits_stop_underscore _ acc cnt)
      (by unfold LONG_MAX; omega)
  have e3 : strtou64Model (natDecimal transactionNumber ++ '_' ::
      natDecimal connectionNumber) 0 = (transactionNumber, 0) :=
    strtou64Model_natDecimal _ _ _ (fun acc cnt => spanDigits_stop_underscore _ acc cnt)
      (by unfold ULLONG_MAX; omega)
  have e4 : strtoulModel (natDecimal connectionNumber) 0 = (connectionNumber, 0) := by
    unfold strtoulModel
    rw [← List.append_nil (natDecimal connectionNumber)]
    exact strtou64Model_natDecimal _ [] 0 (fun acc cnt => rfl) (by unfold ULLONG_MAX; omega)
  have t1 : toInt32 ((groupId : Int)) = (groupId : Int) :=
    toInt32_of_small _ (by omega) (by exact_mod_cast hg)
  have t2 : toInt32 ((pid : Int)) = (pid : Int) :=
    toInt32_of_small _ (by omega) (by exact_mod_cast hp)
  unfold ParsePreparedTransactionName Assign2PCName prepared2PCNameChars
  rw [show (String.mk ('c' :: 'i' :: 't' :: 'u' :: 's' :: '_' ::
      (natDecimal groupId ++ '_' ::
        (natDecimal pid ++ '_' ::
          (natDecimal transactionNumber ++ '_' :: natDecimal connectionNumber))))).toList =
      'c' :: 'i' :: 't' :: 'u' :: 's' :: '_' ::
      (natDecimal groupId ++ '_' ::
        (natDecimal pid ++ '_' ::
          (natDecimal transactionNumber ++ '_' :: natDecimal connectionNumber))) from rfl]
  rw [strchrSkip_citus]
  simp only [Option.some_bind, e1, t1, strchrSkip_natDecimal, e2, t2, e3, e4]
  rw [if_neg (by simp [EINVAL, ERANGE])]
  rw [if_neg (by simp [EINVAL, ERANGE])]
  rw [if_neg (by simp [EINVAL, ERANGE])]
  rw [if_neg (by simp [EINVAL, ERANGE, UINT_MAX])]
  rw [Nat.mod_eq_of_lt hc]

/-- Witness for C2 at the concrete tuple (1, 42, 7, 3). -/
theorem c2_identifier_roundtrip_witness :
    (1 : Nat) < 2147483648 ∧ (42 : Nat) < 2147483648 ∧
      ParsePreparedTransactionName (Assign2PCName 1 42 7 3) 0 =
        some ((1 : Int), (42 : Int), 7, 3) :=
  ⟨by decide, by decide,
    c2_identifier_roundtrip 1 42 7 3 (by decide) (by decide) (by decide) (by decide)⟩

end RemoteXact

namespace RemoteXact

/-- Claim C1: with two write participants A and B, both STARTED and healthy,
where A's PREPARE succeeds and B's PREPARE returns a non-OK result, the
prepare phase leaves A in PREPARED and B in ABORTED; moreover the commit path
issues COMMIT PREPARED only for a participant whose state is PREPARED and not
failed, and the commit phase skips an ABORTED participant entirely, so the
protocol never commits a participant whose prepare did not reach PREPARED. -/
theorem c1_prepare_atomicity :
    ((CoordinatedRemoteTransactionsPrepare 1 2 3 0
        [(writerConn, { sendOK := true, resultOK := true, clearOK := true }),
         (writerConn, { sendOK := true, resultOK := false, clearOK := true })]).map
      (fun r => r.conn.remoteTransaction.transactionState) =
      [RemoteTransactionState.prepared, RemoteTransactionState.aborted])
    ∧ (∀ (connection : MultiConnection) (sendOK : Bool) (name : String),
        RemoteCommand.commitPrepared name ∈
            (StartRemoteTransactionCommit connection sendOK).sent →
          connection.remoteTransaction.transactionState = RemoteTransactionState.prepared
            ∧ connection.remoteTransaction.transactionFailed = false)
    ∧ (∀ (connection : MultiConnection) (oracle : CommitOracle),
        connection.remoteTransaction.transactionState = RemoteTransactionState.aborted →
          commitStartStep connection oracle =
            { conn := connection, sent := [], reports := [] }) := by
  refine ⟨by decide, ?_, ?_⟩
  · intro connection sendOK name hmem
    obtain ⟨⟨st, f, cr, rec, pn, lss, lqs⟩, mp⟩ := connection
    cases f <;> cases st <;> cases sendOK <;>
      simp_all [StartRemoteTransactionCommit, HandleRemoteTransactionConnectionError]
  · intro connection oracle h
    obtain ⟨⟨st, f, cr, rec, pn, lss, lqs⟩, mp⟩ := connection
    cases st <;> simp_all [commitStartStep]

/-- Witness for C1: the COMMIT PREPARED guard applied at a concrete prepared
participant. -/
theorem c1_prepare_atomicity_witness :
    preparedConn.remoteTransaction.transactionState = RemoteTransactionState.prepared
      ∧ preparedConn.remoteTransaction.transactionFailed = false :=
  c1_prepare_atomicity.2.1 preparedConn true "citus_1_2_3_0" (by decide)

/-- Claim C3: during rollback-to-savepoint with target subId, a participant
whose transaction already failed is marked recovering and has the rollback
attempted iff lastSuccessfulSubXact <= subId, and is skipped entirely
(no state change, nothing sent) otherwise; when the rollback finishes with an
OK result while the participant is recovering, both the failed and recovering
flags are cleared and the state is reset to STARTED. -/
theorem c3_savepoint_recovery_policy (subId : Nat) (connection : MultiConnection)
    (sendOK : Bool) (hf : connection.remoteTransaction.transactionFailed = true) :
    (connection.remoteTransaction.lastSuccessfulSubXact ≤ subId →
        ((savepointRollbackStartStep subId connection
            sendOK).conn.remoteTransaction.transactionRecovering = true
          ∧ RemoteCommand.rollbackToSavepoint subId ∈
              (savepointRollbackStartStep subId connection sendOK).sent))
    ∧ (¬ connection.remoteTransaction.lastSuccessfulSubXact ≤ subId →
        savepointRollbackStartStep subId connection sendOK =
          { conn := connection, sent := [], reports := [] })
    ∧ (∀ connection2 : MultiConnection,
        connection2.remoteTransaction.transactionRecovering = true →
          ((FinishRemoteTransactionSavepointRollback connection2
              true).conn.remoteTransaction.transactionFailed = false
            ∧ (FinishRemoteTransactionSavepointRollback connection2
              true).conn.remoteTransaction.transactionRecovering = false
            ∧ (FinishRemoteTransactionSavepointRollback connection2
              true).conn.remoteTransaction.transactionState =
                RemoteTransactionState.started)) := by
  refine ⟨?_, ?_, ?_⟩
  · intro hle
    obtain ⟨⟨st, f, cr, rec, pn, lss, lqs⟩, mp⟩ := connection
    cases sendOK <;>
      simp_all [savepointRollbackStartStep, StartRemoteTransactionSavepointRollback,
        HandleRemoteTransactionConnectionError]
  · intro hgt
    obtain ⟨⟨st, f, cr, rec, pn, lss, lqs⟩, mp⟩ := connection
    simp_all [savepointRollbackStartStep]
  · intro connection2 hrec
    obtain ⟨⟨st, f, cr, rec, pn, lss, lqs⟩, mp⟩ := connection2
    simp_all [FinishRemoteTransactionSavepointRollback, HandleRemoteTransactionResultError]

/-- Witness for C3 at a failed participant with lastSuccessfulSubXact = 1 and
rollback target 2, and a concrete recovering participant with an OK result. -/
theorem c3_savepoint_recovery_policy_witness :
    ((savepointRollbackStartStep 2 (failedSavepointConn 1)
        true).conn.remoteTransaction.transactionRecovering = true
      ∧ RemoteCommand.rollbackToSavepoint 2 ∈
          (savepointRollbackStartStep 2 (failedSavepointConn 1) true).sent)
    ∧ ((FinishRemoteTransactionSavepointRollback recoveringConn
          true).conn.remoteTransaction.transactionFailed = false
      ∧ (FinishRemoteTransactionSavepointRollback recoveringConn
          true).conn.remoteTransaction.transactionRecovering = false
      ∧ (FinishRemoteTransactionSavepointRollback recoveringConn
          true).conn.remoteTransaction.transactionState =
            RemoteTransactionState.started) :=
  ⟨(c3_savepoint_recovery_policy 2 (failedSavepointConn 1) true (by decide)).1 (by decide),
    (c3_savepoint_recovery_policy 2 (failedSavepointConn 1) true (by decide)).2.2
      recoveringConn (by decide)⟩

/-- Counterexample to claim C4 as stated: a failed participant with
lastSuccessfulSubXact = 3 keeps failed = true after ROLLBACK TO SAVEPOINT 2
(the claim says its failed flag is cleared), and the same participant with
lastSuccessfulSubXact = 1 has failed cleared (the claim says it is skipped
with failed unchanged). The recovery condition in the source is
lastSuccessfulSubXact <= subId, the opposite of the claim's reading. -/
theorem c4_savepoint_example_counterexample :
    ((CoordinatedRemoteTransactionsSavepointRollback 2
        [(failedSavepointConn 3, { sendOK := true, resultOK := true })]).map
      (fun r => r.conn.remoteTransaction.transactionFailed) = [true])
    ∧ ((CoordinatedRemoteTransactionsSavepointRollback 2
        [(failedSavepointConn 1, { sendOK := true, resultOK := true })]).map
      (fun r => r.conn.remoteTransaction.transactionFailed) = [false]) := by
  decide

/-- Claim C4 amended: for a failed participant with lastSuccessfulSubXact = 1,
ROLLBACK TO SAVEPOINT 2 clears the failed flag and sets the state to STARTED;
for the same participant with lastSuccessfulSubXact = 3 the rollback skips it,
sending nothing and leaving the participant record (state and failed flag
included) unchanged. -/
theorem c4_savepoint_example_amended :
    ((CoordinatedRemoteTransactionsSavepointRollback 2
        [(failedSavepointConn 1, { sendOK := true, resultOK := true })]).map
      (fun r => (r.conn.remoteTransaction.transactionFailed,
        r.conn.remoteTransaction.transactionState)) =
      [(false, RemoteTransactionState.started)])
    ∧ ((CoordinatedRemoteTransactionsSavepointRollback 2
        [(failedSavepointConn 3, { sendOK := true, resultOK := true })]).map
      (fun r => r.conn) = [failedSavepointConn 3])
    ∧ ((CoordinatedRemoteTransactionsSavepointRollback 2
        [(failedSavepointConn 3, { sendOK := true, resultOK := true })]).map
      (fun r => r.sent) = [[]]) := by
  decide

/-- Claim C5: every transport-level and result-level fault handled by the
failure classifier sets the participant's failed flag, and the raised severity
is a hard error iff the connection is critical and the caller requested error
propagation; every other combination yields a warning. -/
theorem c5_failure_classifier (connection : MultiConnection) (raiseErrors : Bool) :
    ((HandleRemoteTransactionConnectionError connection
        raiseErrors).1.remoteTransaction.transactionFailed = true
      ∧ ((HandleRemoteTransactionConnectionError connection raiseErrors).2 =
            ReportLevel.error ↔
          connection.remoteTransaction.transactionCritical = true ∧ raiseErrors = true))
    ∧ ((HandleRemoteTransactionResultError connection
        raiseErrors).1.remoteTransaction.transactionFailed = true
      ∧ ((HandleRemoteTransactionResultError connection raiseErrors).2 =
            ReportLevel.error ↔
          connection.remoteTransaction.transactionCritical = true ∧ raiseErrors = true)) := by
  unfold HandleRemoteTransactionConnectionError HandleRemoteTransactionResultError
  cases hcrit : connection.remoteTransaction.transactionCritical <;>
    cases raiseErrors <;> simp [hcrit]

/-- Witness for C5: a critical connection with propagation requested gets a
hard error. -/
theorem c5_failure_classifier_witness :
    (HandleRemoteTransactionConnectionError criticalWriterConn true).2 =
      ReportLevel.error :=
  (c5_failure_classifier criticalWriterConn true).1.2.mpr ⟨by decide, rfl⟩

/-- Claim C6: a participant that recorded no write is skipped by the prepare
phase (connection unchanged, nothing sent, never entering PREPARING or
PREPARED), and the commit and abort paths on it send only a plain COMMIT or
ROLLBACK — never PREPARE, COMMIT PREPARED or ROLLBACK PREPARED. -/
theorem c6_readonly_exclusion (connection : MultiConnection) (oracle : PrepareOracle)
    (groupId pid transactionNumber counter : Nat) (sendOK clearReadyOK : Bool)
    (hro : connection.connectionModifiedPlacement = false)
    (hstate : connection.remoteTransaction.transactionState =
      RemoteTransactionState.started) :
    (prepareStartStep groupId pid transactionNumber counter connection oracle =
        (counter, { conn := connection, sent := [], reports := [] }))
    ∧ (prepareFinishStep connection oracle =
        { conn := connection, sent := [], reports := [] })
    ∧ ((StartRemoteTransactionCommit connection sendOK).sent = [RemoteCommand.commit]
        ∨ (StartRemoteTransactionCommit connection sendOK).sent = [RemoteCommand.rollback])
    ∧ ((StartRemoteTransactionAbort connection sendOK clearReadyOK).sent = []
        ∨ (StartRemoteTransactionAbort connection sendOK clearReadyOK).sent =
            [RemoteCommand.rollback]) := by
  obtain ⟨⟨st, f, cr, rec, pn, lss, lqs⟩, mp⟩ := connection
  cases f <;> cases sendOK <;> cases clearReadyOK <;>
    simp_all [prepareStartStep, prepareFinishStep, StartRemoteTransactionCommit,
      StartRemoteTransactionAbort, MarkRemoteTransactionFailed,
      HandleRemoteTransactionConnectionError]

/-- Witness for C6 at a concrete read-only participant. -/
theorem c6_readonly_exclusion_witness :
    prepareStartStep 1 2 3 0 readerConn { sendOK := true, resultOK := true, clearOK := true } =
        (0, { conn := readerConn, sent := [], reports := [] })
      ∧ ((StartRemoteTransactionCommit readerConn true).sent = [RemoteCommand.commit]
        ∨ (StartRemoteTransactionCommit readerConn true).sent = [RemoteCommand.rollback]) :=
  ⟨(c6_readonly_exclusion readerConn
      { sendOK := true, resultOK := true, clearOK := true } 1 2 3 0 true true
      (by decide) (by decide)).1,
    (c6_readonly_exclusion readerConn
      { sendOK := true, resultOK := true, clearOK := true } 1 2 3 0 true true
      (by decide) (by decide)).2.2.1⟩

/-- Counterexample to claim C7 as stated: for a non-critical participant a
non-OK PREPARE result produces no hard error at all (only a warning), even
though the state is marked ABORTED; the claim says a hard error is raised. -/
theorem c7_prepare_error_counterexample :
    ReportLevel.error ∉ (FinishRemoteTransactionPrepare preparingConn false true).reports
      ∧ (FinishRemoteTransactionPrepare preparingConn false
          true).conn.remoteTransaction.transactionState =
        RemoteTransactionState.aborted := by
  decide

/-- Claim C7 amended: when FinishRemoteTransactionPrepare receives a non-OK
result (and draining succeeds), it marks the state ABORTED and raises a hard
error iff the connection is critical — a non-critical connection gets only a
warning; an OK result marks the state PREPARED. -/
theorem c7_prepare_finish_amended (connection : MultiConnection) :
    ((FinishRemoteTransactionPrepare connection false
          true).conn.remoteTransaction.transactionState = RemoteTransactionState.aborted
      ∧ (ReportLevel.error ∈ (FinishRemoteTransactionPrepare connection false true).reports ↔
          connection.remoteTransaction.transactionCritical = true))
    ∧ (FinishRemoteTransactionPrepare connection true
        true).conn.remoteTransaction.transactionState = RemoteTransactionState.prepared := by
  obtain ⟨⟨st, f, cr, rec, pn, lss, lqs⟩, mp⟩ := connection
  cases cr <;>
    simp_all [FinishRemoteTransactionPrepare, HandleRemoteTransactionResultError]

/-- Witness for the amended C7: a critical participant's failed prepare does
raise a hard error. -/
theorem c7_prepare_finish_amended_witness :
    ReportLevel.error ∈ (FinishRemoteTransactionPrepare preparingCriticalConn false true).reports :=
  (c7_prepare_finish_amended preparingCriticalConn).1.2.mpr (by decide)

/-- Claim C8: FinishRemoteTransactionCommit on a non-OK result raises only
warnings — never a hard error — and leaves the state unchanged (in particular
not COMMITTED); an OK result marks a committing participant COMMITTED and an
aborting one (ROLLBACK sent for a failed transaction) ABORTED. -/
theorem c8_commit_finish_warns (connection : MultiConnection) (resultOK : Bool)
    (hstate : connection.remoteTransaction.transactionState =
        RemoteTransactionState.onePCAborting
      ∨ connection.remoteTransaction.transactionState =
        RemoteTransactionState.onePCCommitting
      ∨ connection.remoteTransaction.transactionState =
        RemoteTransactionState.twoPCCommitting) :
    (resultOK = false →
        ReportLevel.error ∉ (FinishRemoteTransactionCommit connection resultOK).reports
        ∧ (FinishRemoteTransactionCommit connection resultOK).reports ≠ []
        ∧ (FinishRemoteTransactionCommit connection
            resultOK).conn.remoteTransaction.transactionState =
          connection.remoteTransaction.transactionState
        ∧ (FinishRemoteTransactionCommit connection
            resultOK).conn.remoteTransaction.transactionState ≠
          RemoteTransactionState.committed)
    ∧ (resultOK = true →
        ((connection.remoteTransaction.transactionState =
              RemoteTransactionState.onePCCommitting
            ∨ connection.remoteTransaction.transactionState =
              RemoteTransactionState.twoPCCommitting) →
          (FinishRemoteTransactionCommit connection
              resultOK).conn.remoteTransaction.transactionState =
            RemoteTransactionState.committed)
        ∧ (connection.remoteTransaction.transactionState =
            RemoteTransactionState.onePCAborting →
          (FinishRemoteTransactionCommit connection
              resultOK).conn.remoteTransaction.transactionState =
            RemoteTransactionState.aborted)) := by
  obtain ⟨⟨st, f, cr, rec, pn, lss, lqs⟩, mp⟩ := connection
  cases resultOK <;> rcases hstate with h | h | h <;>
    simp_all [FinishRemoteTransactionCommit, HandleRemoteTransactionResultError]

/-- Witness for C8: a lost commit result on a concrete committing participant
produces no hard error. -/
theorem c8_commit_finish_warns_witness :
    ReportLevel.error ∉ (FinishRemoteTransactionCommit committingConn false).reports :=
  ((c8_commit_finish_warns committingConn false (by decide)).1 rfl).1

/-- Claim C9, evaluated: a missing separator ("bad_1_2") and a missing final
field ("citus_1_2_3") are rejected as not well-formed, but the failing input
"citus_3000000000_1_2_3", whose groupId field exceeds INT32_MAX, is accepted
with the field truncated to -1294967296: the 64-bit strtol result passes the
INT_MAX/ERANGE guard and is stored through the int32 pointer, so the claim's
"out-of-range integer returns false" does not hold on the code. -/
theorem c9_parse_malformed_eval :
    ParsePreparedTransactionName "bad_1_2" 0 = none
    ∧ ParsePreparedTransactionName "citus_1_2_3" 0 = none
    ∧ ParsePreparedTransactionName "citus_3000000000_1_2_3" 0 =
        some (-1294967296, 1, 2, 3) := by
  decide

/-- Claim C10: FinishRemoteTransactionSavepointRollback resets the state to
STARTED for every participant it finishes, whether or not the participant was
failed or recovering and whether or not the result was OK; only the clearing
of the failed and recovering flags is conditional on an OK result while
recovering (a non-OK result instead sets failed). -/
theorem c10_savepoint_finish_unconditional_reset (connection : MultiConnection)
    (resultOK : Bool) :
    (FinishRemoteTransactionSavepointRollback connection
        resultOK).conn.remoteTransaction.transactionState =
      RemoteTransactionState.started
    ∧ (FinishRemoteTransactionSavepointRollback connection
        resultOK).conn.remoteTransaction.transactionFailed =
      (if resultOK then
        (if connection.remoteTransaction.transactionRecovering then false
         else connection.remoteTransaction.transactionFailed)
       else true)
    ∧ (FinishRemoteTransactionSavepointRollback connection
        resultOK).conn.remoteTransaction.transactionRecovering =
      (if resultOK then false else connection.remoteTransaction.transactionRecovering) := by
  unfold FinishRemoteTransactionSavepointRollback HandleRemoteTransactionResultError
  cases resultOK <;>
    cases hrec : connection.remoteTransaction.transactionRecovering <;> simp [hrec]

end RemoteXact
